import Mathlib

/-!
Verification of the lexical scanner in `src/backend/scanner.rs` of loxrs.

The scanner's own code (struct `Scanner` and its methods) is embedded
faithfully below.  The auxiliary data types it uses (`Token`, `TokenType`,
`ScanResult`, from `crate::data`) are not present in the repository snapshot,
so they are modelled from the spec and from their use sites in `scanner.rs`.

Conventions of the embedding:
- Source text is a `List Char`; cursor indices are character positions.
  (The Rust code mixes `source.len()` in bytes with `chars().nth` positions;
  for the ASCII inputs exercised here, and for the emptiness test that gates
  the top-level loop, the two coincide.)
- A Rust `panic!` / `expect` failure is `Except.error (ScanExc.panic msg)`.
- A loop whose condition is invariant across iterations and initially true
  (the `//`-comment loop never moves `current`) is `Except.error ScanExc.diverge`.
- `println!` messages (the scanner's only error-reporting channel) are
  collected into a `List String` side channel.
- Rust `i16` line counters are modelled as `Int`; no execution reached by the
  theorems below performs enough increments for the `i16` range to matter.
-/

/-- Exceptional outcomes of running scanner code: a Rust panic (with the
`expect` message), or non-termination of a loop. -/
inductive ScanExc where
  | panic (msg : String)
  | diverge
deriving DecidableEq

/-- Modelled from the spec: `TokenType` (`crate::data::types`, absent from the
snapshot).  Spec section 3 gives the closed set of kinds: fixed punctuation,
one/two-character operators, a literal-carrying `String`, and the sentinel
`End`.  Variant names follow the constructors used in `scanner.rs`, completed
with `Less` and `Greater` from the spec's kind set. -/
inductive TokenType where
  | LeftParen | RightParen | LeftBrace | RightBrace
  | Comma | Dot | Minus | Plus | Semicolon | Star | Slash
  | Bang | BangEqual | Equal | EqualEqual
  | Greater | GreaterEqual | Less | LessEqual
  | String (val : List Char)
  | End
deriving DecidableEq

/-- Modelled from the spec: `Token` (`crate::data::token`, absent from the
snapshot).  Spec section 3: an immutable record of kind, lexeme and 1-based
line.  `Token::new(t, text, line)` in `scanner.rs` is the anonymous
constructor. -/
structure Token where
  kind : TokenType
  lexeme : List Char
  line : Int
deriving DecidableEq

/-- Modelled from the spec: `ScanResult` (`crate::data::payload`, absent from
the snapshot) — the per-step side-channel record of spec section 9.  Its
fields are forced by its use in `scanner.rs`: a count of newlines seen
(`lines()`), a count of characters consumed (`read()`), and an optional token
for the caller to add (`token_to_add()`), with `new()` returning zeroes and
the `inc_*` / `set_token` methods the evident updates. -/
structure ScanResult where
  lines : Int
  read : Nat
  token : Option TokenType
deriving DecidableEq

namespace ScanResult

def new : ScanResult := ⟨0, 0, none⟩

def inc_read (r : ScanResult) : ScanResult := { r with read := r.read + 1 }

def inc_lines (r : ScanResult) : ScanResult := { r with lines := r.lines + 1 }

def inc_read_by_x (r : ScanResult) (x : Nat) : ScanResult :=
  { r with read := r.read + x }

def inc_lines_by_x (r : ScanResult) (x : Int) : ScanResult :=
  { r with lines := r.lines + x }

def set_token (r : ScanResult) (t : TokenType) : ScanResult :=
  { r with token := some t }

end ScanResult

/-- `Scanner::is_at_end`: `current >= source_len`. -/
def is_at_end (current sourceLen : Nat) : Bool :=
  decide (sourceLen ≤ current)

/-- `Scanner::peek`: NUL sentinel at end, else the character at `current`.
The in-bounds `expect` of the Rust code cannot fire because of the guard, so
the total `getD` is an exact embedding. -/
def peek (current : Nat) (source : List Char) : Char :=
  if is_at_end current source.length then Char.ofNat 0
  else source.getD current (Char.ofNat 0)

/-- `Scanner::advance`: `source.chars().nth(current + 1).expect(...)` — note
the Rust code reads index `current + 1`, not `current`, and panics when that
index is out of range. -/
def advance (source : List Char) (current : Nat) : Except ScanExc Char :=
  match source.get? (current + 1) with
  | some c => .ok c
  | none => .error (.panic "current is borked")

/-- `Scanner::cond_advance`: returns false at end; otherwise inspects
`source.chars().nth(current + 1)` (panicking if absent) and compares it with
`expected`.  It never moves the cursor. -/
def cond_advance (source : List Char) (current : Nat) (expected : Char) :
    Except ScanExc Bool :=
  if is_at_end current source.length then .ok false
  else
    match source.get? (current + 1) with
    | some next => .ok (decide (next = expected))
    | none => .error (.panic "cond advance")

/-- `Scanner::add_token`: builds a token whose lexeme is the source slice
`[start, current)`; `source.get(start..current).expect(...)` panics when the
range is invalid. -/
def add_token (t : TokenType) (start current : Nat) (source : List Char)
    (line : Int) : Except ScanExc Token :=
  if start ≤ current ∧ current ≤ source.length then
    .ok ⟨t, (source.drop start).take (current - start), line⟩
  else .error (.panic "current or start is borked")

/-- The `while` loop inside `Scanner::string`: advance a local cursor until
the character under it is `"` or the end of input is reached, counting
newlines and characters read.  Returns the updated result and the final local
cursor.  This loop does terminate (`loc_current` strictly increases). -/
def string_loop (source : List Char) (loc : Nat) (res : ScanResult) :
    ScanResult × Nat :=
  if h : peek loc source ≠ '"' ∧ ¬ is_at_end loc source.length then
    string_loop source (loc + 1)
      ((if peek loc source = '\n' then res.inc_lines else res).inc_read)
  else (res, loc)
termination_by source.length - loc
decreasing_by
  have hlt : loc < source.length := by
    have := h.2
    simpa [is_at_end] using this
  omega

/-- `Scanner::string`: scan until the closing quote or end of input.  On end
of input, print "Unterminated string." and return with no token.  Otherwise
consume the closing quote and record a `String` token whose value is the Rust
slice `source[start + 1 .. loc_current - 1]`; that indexing panics when the
range is reversed. -/
def string (current : Nat) (source : List Char) (start : Nat) :
    Except ScanExc (ScanResult × List String) :=
  let (res, loc) := string_loop source current ScanResult.new
  if is_at_end loc source.length then
    .ok (res, ["Unterminated string."])
  else
    let res := res.inc_read
    let loc := loc + 1
    if start + 1 ≤ loc - 1 ∧ loc - 1 ≤ source.length then
      .ok (res.set_token
        (.String ((source.drop (start + 1)).take (loc - 1 - (start + 1)))), [])
    else .error (.panic "byte index out of range")

/-- `Scanner::scan_token`: dispatch on `advance`'s character and classify one
lexeme.  Returns the step's `ScanResult`, the tokens pushed onto the token
vector, and the `println!` messages emitted.  Every quirk of the source is
kept: `cond_advance` inspects the same index `advance` just returned, the
`<` and `>` branches fall back to `TokenType::Equal`, the comment loop never
moves `current` (so it diverges whenever its condition holds), and a final
unconditional `inc_read` runs on every path. -/
def scan_token (source : List Char) (current start : Nat) (line : Int) :
    Except ScanExc (ScanResult × List Token × List String) := do
  let res0 := ScanResult.new
  let c ← advance source current
  let (res, toks, errs) ←
    match c with
    | '(' => do
        let tk ← add_token .LeftParen start current source line
        pure (res0, [tk], [])
    | ')' => do
        let tk ← add_token .RightParen start current source line
        pure (res0, [tk], [])
    | '{' => do
        let tk ← add_token .LeftBrace start current source line
        pure (res0, [tk], [])
    | '}' => do
        let tk ← add_token .RightBrace start current source line
        pure (res0, [tk], [])
    | ',' => do
        let tk ← add_token .Comma start current source line
        pure (res0, [tk], [])
    | '.' => do
        let tk ← add_token .Dot start current source line
        pure (res0, [tk], [])
    | '-' => do
        let tk ← add_token .Minus start current source line
        pure (res0, [tk], [])
    | '+' => do
        let tk ← add_token .Plus start current source line
        pure (res0, [tk], [])
    | ';' => do
        let tk ← add_token .Semicolon start current source line
        pure (res0, [tk], [])
    | '*' => do
        let tk ← add_token .Star start current source line
        pure (res0, [tk], [])
    | '!' => do
        let b ← cond_advance source current '='
        let t := if b then TokenType.BangEqual else TokenType.Bang
        let tk ← add_token t start current source line
        pure (res0.inc_read, [tk], [])
    | '=' => do
        let b ← cond_advance source current '='
        let t := if b then TokenType.EqualEqual else TokenType.Equal
        let tk ← add_token t start current source line
        pure (res0.inc_read, [tk], [])
    | '>' => do
        let b ← cond_advance source current '='
        let t := if b then TokenType.GreaterEqual else TokenType.Equal
        let tk ← add_token t start current source line
        pure (res0.inc_read, [tk], [])
    | '<' => do
        let b ← cond_advance source current '='
        let t := if b then TokenType.LessEqual else TokenType.Equal
        let tk ← add_token t start current source line
        pure (res0.inc_read, [tk], [])
    | '/' => do
        let b ← cond_advance source current '/'
        if b then
          if peek current source ≠ '\n' ∧ ¬ is_at_end current source.length then
            .error .diverge
          else
            pure (res0, [], [])
        else do
          let tk ← add_token .Slash start current source line
          pure (res0.inc_read, [tk], [])
    | '"' => do
        let (subRes, subErrs) ← string current source start
        let res := (res0.inc_lines_by_x subRes.lines).inc_read_by_x subRes.read
        match subRes.token with
        | some tt => do
            let tk ← add_token tt start current source line
            pure (res, [tk], subErrs)
        | none => pure (res, [], subErrs)
    | ' ' | '\t' | '\r' => pure (res0, [], ([] : List String))
    | '\n' => pure (res0.inc_lines, [], [])
    | _ => pure (res0, [], ["surface lexical error to main later"])
  pure (res.inc_read, toks, errs)

/-- The observable outcome of `Scanner::scan_tokens`: the returned token
vector, the `println!` messages, and the scanner's final cursor and line
(exposed so that statements about how much input was consumed can be made). -/
structure ScanOutput where
  tokens : List Token
  errs : List String
  finalCurrent : Nat
  finalLine : Int
deriving DecidableEq

/-- The `while` loop of `Scanner::scan_tokens`, fuelled.  The loop guard of
the Rust code is `Self::is_at_end(self.current, self.source.len())` — it
iterates WHILE the cursor is at the end, not while it is not.  Each iteration
sets `start = current`, runs `scan_token`, then adds `res.lines()` to `line`
and `res.read()` to `current`.  Running out of fuel is recorded as
divergence; the lemma `scanLoop_fuel_irrelevant` shows any positive fuel
yields the same result, so the fuel is a device of the embedding, not a
behaviour change. -/
def scanLoop (source : List Char) :
    Nat → Nat → Int → List Token → List String →
    Except ScanExc (Nat × Int × List Token × List String)
  | 0, _, _, _, _ => .error .diverge
  | fuel + 1, current, line, tokens, errs =>
    if is_at_end current source.length then
      match scan_token source current current line with
      | .error e => .error e
      | .ok (res, newToks, newErrs) =>
          scanLoop source fuel (current + res.read) (line + res.lines)
            (tokens ++ newToks) (errs ++ newErrs)
    else .ok (current, line, tokens, errs)

/-- `Scanner::scan_tokens`: run the loop from `current = 0`, `line = 1` with
an empty token vector, then push the `End` token (empty lexeme, current line)
and return the vector. -/
def scan_tokens (source : List Char) : Except ScanExc ScanOutput :=
  match scanLoop source (source.length + 1) 0 1 [] [] with
  | .error e => .error e
  | .ok (current, line, tokens, errs) =>
      .ok ⟨tokens ++ [⟨.End, [], line⟩], errs, current, line⟩

/-- Whenever the loop guard holds (`current ≥ source.length`), `scan_token`'s
very first action, `advance`, reads index `current + 1`, which is out of
range, so the step panics. -/
theorem scan_token_at_end_panics (source : List Char) (current start : Nat)
    (line : Int) (h : source.length ≤ current) :
    scan_token source current start line =
      .error (.panic "current is borked") := by
  have hget : source[current + 1]? = none := List.getElem?_eq_none (by omega)
  simp [scan_token, advance, ← List.get?_eq_getElem?, List.get?_eq_getElem?,
    hget]
  rfl

/-- The loop body panics whenever it is entered, so any positive fuel gives
the same result as fuel 1: the fuel parameter of `scanLoop` is irrelevant. -/
theorem scanLoop_fuel_irrelevant (source : List Char) (n : Nat)
    (current : Nat) (line : Int) (tokens : List Token) (errs : List String) :
    scanLoop source (n + 1) current line tokens errs =
      scanLoop source 1 current line tokens errs := by
  by_cases h : is_at_end current source.length
  · have hle : source.length ≤ current := by simpa [is_at_end] using h
    simp [scanLoop, h, scan_token_at_end_panics source current current line hle]
  · simp [scanLoop, h]

/-- Claim C10: for every non-empty source string, `scan_tokens` returns
exactly one token — the `End` token with empty lexeme and line 1 — no error
reports, and a final cursor still at 0: the inverted loop guard
(`while is_at_end`) means the body never runs when the scanner starts before
the end of a non-empty input. -/
theorem scan_tokens_nonempty_only_end (source : List Char)
    (h : source ≠ []) :
    scan_tokens source = .ok ⟨[⟨.End, [], 1⟩], [], 0, 1⟩ := by
  match source, h with
  | a :: as, _ =>
    simp [scan_tokens, scanLoop, is_at_end]

/-- Witness for C10 at the concrete input "(". -/
theorem scan_tokens_nonempty_only_end_witness :
    scan_tokens ['('] = .ok ⟨[⟨.End, [], 1⟩], [], 0, 1⟩ :=
  scan_tokens_nonempty_only_end ['('] (by decide)

/-- Claim C1 (refuted by the code): the top-level loop is gated as
`while is_at_end(...)`, the opposite of the spec.  On the input "+" the loop
body never runs: the output is only the `End` token and the final cursor is
still 0, strictly before the end of input, so the `+` character is never
examined. -/
theorem scan_loop_never_consumes_nonempty_input :
    scan_tokens ['+'] = .ok ⟨[⟨.End, [], 1⟩], [], 0, 1⟩ ∧
      (0 : Nat) < (['+'] : List Char).length :=
  ⟨rfl, by decide⟩

/-- Claim C2 (refuted by the code): `advance` reads
`source.chars().nth(current + 1)` — the character one past `current`.  On
source "+(" with `current = 0` it returns `(` although the character at
`current` is `+`; on the one-character source "+" it panics instead of
returning `+`. -/
theorem advance_reads_one_past_current :
    advance ['+', '('] 0 = .ok '(' ∧
      (['+', '('] : List Char).getD 0 (Char.ofNat 0) = '+' ∧
      ('(' : Char) ≠ '+' ∧
      advance ['+'] 0 = .error (.panic "current is borked") :=
  ⟨rfl, rfl, by decide, rfl⟩

/-- Claim C3 (refuted by the code): on the empty input the loop guard
`is_at_end(0, 0)` is true, so the body runs, `advance` reads index 1 of an
empty string, and `scan_tokens` panics — no token sequence (and hence no
`End` token) is ever produced. -/
theorem scan_tokens_empty_input_panics :
    scan_tokens [] = .error (.panic "current is borked") :=
  rfl

/-- Claim C4 (refuted by the code): the whole-source scan does not return
normally on every input — on the empty string it reaches the `expect` panic
inside `advance`. -/
theorem scan_tokens_not_total :
    (scan_tokens []).isOk = false :=
  rfl

/-- Claim C5 (refuted by the code): the `<` and `>` dispatch branches fall
back to `TokenType::Equal`, and `cond_advance` re-reads the index `advance`
just consumed, so `scan_token` classifies a lone `<` (and a lone `>`) as an
`Equal`-kind token, never `Less` or `Greater`; the whole-source scan of "<"
emits no `Less` token at all (only `End`). -/
theorem less_greater_collapse_to_equal :
    scan_token ['x', '<'] 0 0 1 = .ok (⟨0, 2, none⟩, [⟨.Equal, [], 1⟩], []) ∧
      scan_token ['x', '>'] 0 0 1 =
        .ok (⟨0, 2, none⟩, [⟨.Equal, [], 1⟩], []) ∧
      TokenType.Equal ≠ TokenType.Less ∧
      TokenType.Equal ≠ TokenType.Greater ∧
      scan_tokens ['<'] = .ok ⟨[⟨.End, [], 1⟩], [], 0, 1⟩ :=
  ⟨rfl, rfl, by decide, by decide, rfl⟩

/-- Claim C6 (refuted by the code): `cond_advance` compares `expected` with
the character at `current + 1`, not `current`, and never moves the cursor.
On source "=x" with `current = 0` and expected `=` the character at `current`
is `=` yet it returns false; on the one-character source "=" it panics; and
after a lone `!` the step's read count is 2 (both branches of the `!` arm run
`inc_read`, plus the final unconditional one), so the cursor advances past
two characters, not one. -/
theorem cond_advance_checks_wrong_index :
    cond_advance ['=', 'x'] 0 '=' = .ok false ∧
      (['=', 'x'] : List Char).getD 0 (Char.ofNat 0) = '=' ∧
      cond_advance ['='] 0 '=' = .error (.panic "cond advance") ∧
      scan_token ['x', '!'] 0 0 1 = .ok (⟨0, 2, none⟩, [⟨.Bang, [], 1⟩], []) :=
  ⟨rfl, rfl, rfl, rfl⟩

/-- Claim C7 (refuted by the code): the `//`-comment loop in `scan_token`
never changes `current`, so its condition is invariant; on source "a/b" at
cursor 0 (dispatch character `/` at index 1, `cond_advance` sees the same
`/`) the condition holds and the step loops forever instead of consuming up
to the next newline. -/
theorem comment_loop_diverges :
    scan_token ['a', '/', 'b'] 0 0 1 = .error .diverge :=
  rfl

/-- Claim C8 (refuted by the code): `scan_token` is always invoked with
`start = current` and `current` is only advanced after the step returns, so
`add_token` slices the empty range `[start, current)`: the `+` token produced
from source "x+" carries the empty lexeme, not "+". -/
theorem punctuation_lexemes_empty :
    scan_token ['x', '+'] 0 0 1 = .ok (⟨0, 1, none⟩, [⟨.Plus, [], 1⟩], []) ∧
      ([] : List Char) ≠ ['+'] :=
  ⟨rfl, by decide⟩

/-- Claim C9 (refuted by the code): on the unterminated string input
(a quote never closed) the top-level loop never runs, so no
"Unterminated string." report is emitted (the error list is empty) and the
final cursor stays at 0, not at end of input; only the `End` token appears. -/
theorem unterminated_string_never_reported :
    scan_tokens ['"', 'a'] = .ok ⟨[⟨.End, [], 1⟩], [], 0, 1⟩ ∧
      (0 : Nat) ≠ (['"', 'a'] : List Char).length :=
  ⟨rfl, by decide⟩
